import Mathlib

/-!
Shallow embedding of the listener-estimation engine of `melody-now`
(`src/melody_core.py` and `src/backfill_listeners.py`), together with
theorems settling the specification claims about it.

Modelling conventions:
* Python floats are idealised as real numbers.
* A `datetime` value is modelled by the record `PyDateTime`, which holds
  exactly the fields the engine reads: `hour`, `minute`, `weekday`
  (Monday = 0), `timestamp` (epoch seconds) and `isoformat`.
* The Gaussian draw `random.Random(int(sha256(seed)[:16],16)).gauss(0.0, sigma)`
  used by `melody_core._rng_from_key` / `_clipped_gauss` is a fixed
  deterministic function of the seed string and of sigma; it is modelled
  by an explicit oracle parameter `g : String → ℝ → ℝ`.  Likewise the two
  md5 digest halves `int(d[:16],16)` / `int(d[16:32],16)` consumed by
  `backfill_listeners._deterministic_jitter` are modelled by an oracle
  `m : String → ℕ × ℕ`.  Everything downstream of the digests is
  translated literally.
* The ambient process state (wall clock, the `random` module global
  generator) is modelled by an explicit `ProcessEnv` argument threaded
  into the two public entry points; the translated bodies never read it,
  mirroring the source, and the determinism theorem records this.
* Python's built-in `round` (round-half-to-even) is modelled by `pyRound`.
-/

namespace MelodyNow

/-- The fields of a `datetime.datetime` read by the engine. -/
structure PyDateTime where
  hour : ℕ
  minute : ℕ
  weekday : ℕ
  timestamp : ℤ
  isoformat : String

/-- Ambient per-process state that could in principle leak into a
computation: the wall clock and the global `random` generator state.
The engine's translated bodies take it as an argument and never use it. -/
structure ProcessEnv where
  wallClock : ℤ
  randomState : ℕ

/-- Python 3 `round(x)`: round half to even, returning an integer. -/
noncomputable def pyRound (x : ℝ) : ℤ :=
  if Int.fract x < 1 / 2 then ⌊x⌋
  else if 1 / 2 < Int.fract x then ⌊x⌋ + 1
  else if ⌊x⌋ % 2 = 0 then ⌊x⌋ else ⌊x⌋ + 1

namespace melody_core

/-- The module-level estimation parameters of `melody_core.py`
(lines 24-32), read once from the environment at import time. -/
structure Params where
  SLOW_BUCKET_S : ℤ
  WEEKDAY_PEAK : ℝ
  WEEKEND_PEAK : ℝ
  NIGHT_MIN : ℝ
  SLOW_SIGMA : ℝ
  SLOW_CLIP : ℝ
  FAST_SIGMA : ℝ
  FAST_CLIP : ℝ

/-- `melody_core.py` lines 24-32: each constant is `float(os.environ.get(NAME, default))`
(`int(...)` for `SLOW_BUCKET_S`).  The process environment is modelled as
two partial maps holding the already-parsed numeric values.  No
validation of any kind is performed, exactly as in the source. -/
def load_params (envI : String → Option ℤ) (envF : String → Option ℝ) : Params :=
  { SLOW_BUCKET_S := (envI "SLOW_BUCKET_S").getD 30
    WEEKDAY_PEAK := (envF "WEEKDAY_PEAK").getD 3200
    WEEKEND_PEAK := (envF "WEEKEND_PEAK").getD 2000
    NIGHT_MIN := (envF "NIGHT_MIN").getD 180
    SLOW_SIGMA := (envF "SLOW_SIGMA").getD 0.04
    SLOW_CLIP := (envF "SLOW_CLIP").getD 0.08
    FAST_SIGMA := (envF "FAST_SIGMA").getD 0.02
    FAST_CLIP := (envF "FAST_CLIP").getD 0.04 }

/-- The parameters obtained with an empty process environment. -/
def default_params : Params := load_params (fun _ => none) (fun _ => none)

/-- `_clipped_gauss(rng, sigma, clip)` (lines 89-94) after the draw
`x = rng.gauss(0.0, sigma)` has been taken: `max(-clip, min(clip, x))`. -/
noncomputable def _clipped_gauss (x clip : ℝ) : ℝ := max (-clip) (min clip x)

/-- `_day_curve_base(dt)` (lines 128-141): two Gaussian humps, a night
penalty on `0 <= h < 5`, and a final clamp into `[0, 1]`. -/
noncomputable def _day_curve_base (dt : PyDateTime) : ℝ :=
  let h : ℝ := (dt.hour : ℝ) + (dt.minute : ℝ) / 60.0
  let m1 := Real.exp (-(((h - 9.5) / 2.2) ^ 2))
  let m2 := Real.exp (-(((h - 16.0) / 2.8) ^ 2))
  let base := max m1 m2
  let base := if 0 ≤ h ∧ h < 5 then base * (0.25 + 0.15 * (h / 5.0)) else base
  max 0.0 (min 1.0 base)

/-- The seed string of the slow jitter generator (line 166):
`f"slow::{seed_key or dt.isoformat()}"`; a Python `or` on strings falls
back on the right operand exactly when the left one is empty. -/
def slow_seed (seed_key : String) (dt : PyDateTime) : String :=
  "slow::" ++ (if seed_key = "" then dt.isoformat else seed_key)

/-- The live bucket (lines 170-173): `int(dt.timestamp() // SLOW_BUCKET_S)`
when no client timestamp is given, else `(ts_ms // 1000) // SLOW_BUCKET_S`.
Python `//` on integers is floor division, i.e. `Int.fdiv`. -/
def live_bucket (P : Params) (dt : PyDateTime) (ts_ms : Option ℤ) : ℤ :=
  match ts_ms with
  | none => Int.fdiv dt.timestamp P.SLOW_BUCKET_S
  | some t => Int.fdiv (Int.fdiv t 1000) P.SLOW_BUCKET_S

/-- The seed string of the fast jitter generator (line 174): `f"fast::{bucket}"`. -/
def fast_seed (bucket : ℤ) : String := "fast::" ++ toString bucket

/-- The slow perturbation of `estimate_listeners` (lines 166-167):
`_clipped_gauss(_rng_from_key(slow_seed), SLOW_SIGMA, SLOW_CLIP)`,
with the seeded Gaussian draw supplied by the oracle `g`. -/
noncomputable def slow_eps (g : String → ℝ → ℝ) (P : Params)
    (seed_key : String) (dt : PyDateTime) : ℝ :=
  _clipped_gauss (g (slow_seed seed_key dt) P.SLOW_SIGMA) P.SLOW_CLIP

/-- The fast perturbation of `estimate_listeners` (lines 169-175):
`_clipped_gauss(_rng_from_key(fast_seed(bucket)), FAST_SIGMA, FAST_CLIP)`. -/
noncomputable def fast_eps (g : String → ℝ → ℝ) (P : Params)
    (dt : PyDateTime) (ts_ms : Option ℤ) : ℝ :=
  _clipped_gauss (g (fast_seed (live_bucket P dt ts_ms)) P.FAST_SIGMA) P.FAST_CLIP

/-- `peak = WEEKEND_PEAK if is_weekend else WEEKDAY_PEAK` (lines 159-160),
where `is_weekend = dt.weekday() >= 5`. -/
def peak_for (P : Params) (dt : PyDateTime) : ℝ :=
  if 5 ≤ dt.weekday then P.WEEKEND_PEAK else P.WEEKDAY_PEAK

/-- `base_abs = NIGHT_MIN + (peak - NIGHT_MIN) * base_rel` (lines 162-163). -/
noncomputable def base_abs (P : Params) (dt : PyDateTime) : ℝ :=
  P.NIGHT_MIN + (peak_for P dt - P.NIGHT_MIN) * _day_curve_base dt

/-- `estimate_listeners(dt, seed_key, ts_ms)` (lines 143-192, non-debug
path): `val = base_abs * (1.0 + slow_eps + fast_eps); val = max(0.0, val);
out = int(round(val))`.  Note the only clamp is `max(0.0, val)`. -/
noncomputable def estimate_listeners (g : String → ℝ → ℝ) (P : Params)
    (dt : PyDateTime) (seed_key : String) (ts_ms : Option ℤ)
    (_env : ProcessEnv) : ℤ :=
  pyRound (max 0.0 (base_abs P dt *
    (1.0 + slow_eps g P seed_key dt + fast_eps g P dt ts_ms)))

end melody_core

namespace backfill_listeners

/-- The module-level parameters of `backfill_listeners.py` (lines 27-45). -/
structure Params where
  WEEKDAY_PEAK : ℝ
  WEEKEND_PEAK : ℝ
  NIGHT_MIN : ℝ
  NIGHT_CENTER : ℝ
  NIGHT_WIDTH : ℝ
  NIGHT_STRENGTH : ℝ
  NIGHT_POWER : ℝ
  NIGHT_SFLOOR : ℝ
  EVENING_TAIL_START : ℝ
  EVENING_TAIL_STRENGTH : ℝ
  EVENING_TAIL_SLOPE : ℝ
  MDAY_WOBBLE : ℝ
  MDAY_WOBBLE_PHASE : ℝ
  JITTER_SIGMA : ℝ
  JITTER_CLIP : ℝ

/-- `backfill_listeners.py` lines 27-45: every constant is
`float(os.environ.get(NAME, default))`; the environment is modelled as a
partial map of already-parsed numbers.  As in the source, no validation
whatsoever is performed on the loaded values. -/
def load_params (envF : String → Option ℝ) : Params :=
  { WEEKDAY_PEAK := (envF "WEEKDAY_PEAK").getD 3260
    WEEKEND_PEAK := (envF "WEEKEND_PEAK").getD 1820
    NIGHT_MIN := (envF "NIGHT_MIN").getD 160
    NIGHT_CENTER := (envF "NIGHT_CENTER").getD 2.5
    NIGHT_WIDTH := (envF "NIGHT_WIDTH").getD 3.0
    NIGHT_STRENGTH := (envF "NIGHT_STRENGTH").getD 0.96
    NIGHT_POWER := (envF "NIGHT_POWER").getD 1.6
    NIGHT_SFLOOR := (envF "NIGHT_SFLOOR").getD 0.05
    EVENING_TAIL_START := (envF "EVENING_TAIL_START").getD 22.0
    EVENING_TAIL_STRENGTH := (envF "EVENING_TAIL_STRENGTH").getD 0.35
    EVENING_TAIL_SLOPE := (envF "EVENING_TAIL_SLOPE").getD 0.6
    MDAY_WOBBLE := (envF "MDAY_WOBBLE").getD 0.03
    MDAY_WOBBLE_PHASE := (envF "MDAY_WOBBLE_PHASE").getD 1.2
    JITTER_SIGMA := (envF "JITTER_SIGMA").getD 0.06
    JITTER_CLIP := (envF "JITTER_CLIP").getD 0.12 }

/-- The parameters obtained with an empty process environment. -/
def default_params : Params := load_params (fun _ => none)

/-- `_gauss(x, mu, sigma, amp)` (lines 48-49). -/
noncomputable def _gauss (x mu sigma amp : ℝ) : ℝ :=
  amp * Real.exp (-0.5 * ((x - mu) / sigma) ^ 2)

/-- `_shape_weekday_raw(h)` (lines 51-57). -/
noncomputable def _shape_weekday_raw (h : ℝ) : ℝ :=
  _gauss h 7.8 1.2 0.9 + _gauss h 12.5 1.3 0.45 +
    _gauss h 17.3 1.3 0.85 + _gauss h 20.5 1.8 0.35

/-- `_shape_weekend_raw(h)` (lines 59-64). -/
noncomputable def _shape_weekend_raw (h : ℝ) : ℝ :=
  _gauss h 10.0 1.7 0.35 + _gauss h 14.0 2.0 0.95 + _gauss h 19.5 2.0 0.55

/-- Python `min(arr)` on a list of floats; the source only ever applies it
to the non-empty 289-point grid, so the value on `[]` (where Python would
raise) is an irrelevant sentinel. -/
noncomputable def pymin : List ℝ → ℝ
  | [] => 0
  | x :: xs => xs.foldl min x

/-- Python `max(arr)`; same remarks as for `pymin`. -/
noncomputable def pymax : List ℝ → ℝ
  | [] => 0
  | x :: xs => xs.foldl max x

/-- `_normalize(arr)` (lines 66-69): min-max normalization, with the
degenerate zero-range case mapped to an all-zero list instead of dividing. -/
noncomputable def _normalize (arr : List ℝ) : List ℝ :=
  if pymax arr ≤ pymin arr then arr.map (fun _ => 0.0)
  else arr.map (fun v => (v - pymin arr) / (pymax arr - pymin arr))

/-- `_circ_dist_hours(a, b)` (lines 72-74). -/
noncomputable def _circ_dist_hours (a b : ℝ) : ℝ := min |a - b| (24.0 - |a - b|)

/-- `_sigmoid(x)` (lines 76-77). -/
noncomputable def _sigmoid (x : ℝ) : ℝ := 1.0 / (1.0 + Real.exp (-x))

/-- `_night_depressor(h)` (lines 79-85); `** NIGHT_POWER` is real
exponentiation of the clamped non-negative base. -/
noncomputable def _night_depressor (B : Params) (h : ℝ) : ℝ :=
  let valley := Real.exp (-0.5 *
    (_circ_dist_hours h B.NIGHT_CENTER / max 0.1 B.NIGHT_WIDTH) ^ 2)
  let dep1 := (max 0.0 (min 1.0 (1.0 - B.NIGHT_STRENGTH * valley))) ^ B.NIGHT_POWER
  let tail := _sigmoid ((h - B.EVENING_TAIL_START) / max 0.1 B.EVENING_TAIL_SLOPE)
  let dep2 := 1.0 - B.EVENING_TAIL_STRENGTH * tail
  max 0.0 (min 1.0 (dep1 * dep2))

/-- The 5-minute grid `[i/12 for i in range(0, 24*12 + 1)]` (line 88). -/
noncomputable def grid : List ℝ := (List.range (24 * 12 + 1)).map (fun i => (i : ℝ) / 12)

/-- `_precompute_norm(is_weekend)` (lines 87-90). -/
noncomputable def _precompute_norm (is_weekend : Bool) : List ℝ × List ℝ :=
  (grid, _normalize (grid.map
    (fun x => if is_weekend then _shape_weekend_raw x else _shape_weekday_raw x)))

/-- Python `min(range(len(l)), key=lambda i: abs(l[i] - h))`: the first
index attaining the minimal distance (Python `min` keeps the earliest
element and replaces the running best only on a strict decrease). -/
noncomputable def argmin_idx (l : List ℝ) (h : ℝ) : ℕ :=
  (List.range l.length).foldl
    (fun best i => if |l.getD i 0 - h| < |l.getD best 0 - h| then i else best) 0

/-- `_s01(h, is_weekend)` (lines 92-104).  The module-level cache on the
function object is a transparent memoization of the deterministic
`_precompute_norm`, so it is modelled by calling `_precompute_norm`
directly. -/
noncomputable def _s01 (B : Params) (h : ℝ) (is_weekend : Bool) : ℝ :=
  let gd := _precompute_norm is_weekend
  let idx := argmin_idx gd.1 h
  let s1 := gd.2.getD idx 0 * _night_depressor B h
  let s2 := max B.NIGHT_SFLOOR s1
  let wobble := 1.0 + B.MDAY_WOBBLE *
    Real.sin (2.0 * Real.pi * (h / 24.0) + B.MDAY_WOBBLE_PHASE)
  min 1.0 (max B.NIGHT_SFLOOR (s2 * wobble))

/-- `_expected_count(dt)` (lines 107-112). -/
noncomputable def _expected_count (B : Params) (dt : PyDateTime) : ℝ :=
  let h : ℝ := (dt.hour : ℝ) + (dt.minute : ℝ) / 60.0
  let is_weekend : Bool := 5 ≤ dt.weekday
  let peak := if is_weekend then B.WEEKEND_PEAK else B.WEEKDAY_PEAK
  B.NIGHT_MIN + _s01 B h is_weekend * (peak - B.NIGHT_MIN)

/-- The Box-Muller style variate of `_deterministic_jitter` (lines 115-119),
computed from the two md5 digest halves `a = int(d[:16],16)` and
`b = int(d[16:32],16)`:  `u1 = ((a % 10_000_000) + 0.5) / 10_000_001.0`,
same for `u2`, then `z = ((-2*log(max(u1,1e-9))) ** 0.5) * cos(2*pi*max(u2,1e-9))`. -/
noncomputable def jitter_z (a b : ℕ) : ℝ :=
  let u1 : ℝ := (((a % 10000000 : ℕ) : ℝ) + 0.5) / 10000001.0
  let u2 : ℝ := (((b % 10000000 : ℕ) : ℝ) + 0.5) / 10000001.0
  ((-2.0 * Real.log (max u1 1e-9)) ^ (0.5 : ℝ)) * Real.cos (2 * Real.pi * max u2 1e-9)

/-- `eps = max(-clip, min(clip, sigma * z))` (line 120). -/
noncomputable def jitter_eps (a b : ℕ) (sigma clip : ℝ) : ℝ :=
  max (-clip) (min clip (sigma * jitter_z a b))

/-- `_deterministic_jitter(seed_key, sigma, clip)` (lines 114-121), as a
function of the two md5 digest halves of the seed key: `1.0 + eps`. -/
noncomputable def _deterministic_jitter (a b : ℕ) (sigma clip : ℝ) : ℝ :=
  1.0 + jitter_eps a b sigma clip

/-- The multiplicative jitter factor applied by `estimate_from_curve`
(line 125): `_deterministic_jitter(item_key)` with the default
`sigma = JITTER_SIGMA`, `clip = JITTER_CLIP`; `m` supplies the md5
digest halves of the seed key. -/
noncomputable def jitter_factor (m : String → ℕ × ℕ) (B : Params)
    (item_key : String) : ℝ :=
  _deterministic_jitter (m item_key).1 (m item_key).2 B.JITTER_SIGMA B.JITTER_CLIP

/-- `peak_cap = WEEKEND_PEAK if dt.weekday() >= 5 else WEEKDAY_PEAK` (line 126). -/
def peak_cap (B : Params) (dt : PyDateTime) : ℝ :=
  if 5 ≤ dt.weekday then B.WEEKEND_PEAK else B.WEEKDAY_PEAK

/-- `estimate_from_curve(dt, item_key)` (lines 123-128):
`v = base * jitter; v = max(NIGHT_MIN, min(peak_cap, v)); return int(round(v))`. -/
noncomputable def estimate_from_curve (m : String → ℕ × ℕ) (B : Params)
    (dt : PyDateTime) (item_key : String) (_env : ProcessEnv) : ℤ :=
  pyRound (max B.NIGHT_MIN
    (min (peak_cap B dt) (_expected_count B dt * jitter_factor m B item_key)))

end backfill_listeners

/-! Concrete sample inputs used to instantiate the theorems. -/

/-- Monday 2025-01-06, 09:30 local time (weekday 0), at the exact centre of
the 09:30 weekday hump of `_day_curve_base`. -/
def dt0 : PyDateTime :=
  { hour := 9, minute := 30, weekday := 0, timestamp := 0
    isoformat := "2025-01-06T09:30:00+01:00" }

/-- The same instant-of-day as `dt0` but with an epoch timestamp far enough
away to fall in a different live bucket. -/
def dtT : PyDateTime := { dt0 with timestamp := 999999 }

/-- A sample process environment. -/
def env0 : ProcessEnv := { wallClock := 0, randomState := 0 }

/-- A sample Gaussian-draw oracle: every seeded generator draws `1`
(a value any Gaussian draw can attain and that the clip then truncates). -/
noncomputable def gOne : String → ℝ → ℝ := fun _ _ => 1

/-- A sample md5-digest oracle. -/
def m0 : String → ℕ × ℕ := fun _ => (0, 0)

/-- A process environment carrying a malformed configuration in which both
peaks lie below the night floor. -/
def badEnvF : String → Option ℝ := fun k =>
  if k = "WEEKDAY_PEAK" then some 100
  else if k = "WEEKEND_PEAK" then some 90
  else none

/-! Helper lemmas about `pyRound`. -/

theorem floor_le_pyRound (x : ℝ) : ⌊x⌋ ≤ pyRound x := by
  unfold pyRound
  split
  · exact le_refl _
  split
  · omega
  split
  · exact le_refl _
  · omega

theorem pyRound_le_ceil (x : ℝ) : pyRound x ≤ ⌈x⌉ := by
  have hfr := Int.floor_add_fract x
  unfold pyRound
  split
  · exact Int.floor_le_ceil x
  rename_i h1
  have hpos : (⌊x⌋ : ℝ) < x := by
    have : (0 : ℝ) < Int.fract x := by
      rcases lt_or_le (1 / 2 : ℝ) (Int.fract x) with h | h
      · linarith
      · have := Int.fract_nonneg x
        rcases eq_or_lt_of_le this with h2 | h2
        · exact absurd h2.symm (by intro h3; exact h1 (by rw [h3]; norm_num))
        · exact h2
    linarith
  have hceil : ⌊x⌋ + 1 ≤ ⌈x⌉ := Int.lt_ceil.mpr hpos
  split
  · exact hceil
  split
  · exact Int.floor_le_ceil x
  · exact hceil

theorem pyRound_le_add_half (x : ℝ) : (pyRound x : ℝ) ≤ x + 1 / 2 := by
  have hfr := Int.floor_add_fract x
  unfold pyRound
  split
  · have := Int.floor_le x
    linarith
  rename_i h1
  have hge : (1 / 2 : ℝ) ≤ Int.fract x := le_of_not_lt h1
  split
  · push_cast
    linarith
  split
  · have := Int.floor_le x
    linarith
  · push_cast
    linarith

theorem int_le_pyRound (n : ℤ) (x : ℝ) (h : (n : ℝ) ≤ x) : n ≤ pyRound x :=
  le_trans (Int.le_floor.mpr h) (floor_le_pyRound x)

theorem pyRound_le_int (n : ℤ) (x : ℝ) (h : x ≤ (n : ℝ)) : pyRound x ≤ n :=
  le_trans (pyRound_le_ceil x) (Int.ceil_le.mpr h)

theorem pyRound_nonneg (x : ℝ) (h : 0 ≤ x) : 0 ≤ pyRound x :=
  int_le_pyRound 0 x (by exact_mod_cast h)

/-! Helper lemmas about the clipped perturbations. -/

theorem clipped_gauss_le (x clip : ℝ) (hc : 0 ≤ clip) :
    melody_core._clipped_gauss x clip ≤ clip := by
  unfold melody_core._clipped_gauss
  exact max_le (by linarith) (min_le_left _ _)

theorem neg_le_clipped_gauss (x clip : ℝ) :
    -clip ≤ melody_core._clipped_gauss x clip :=
  le_max_left _ _

theorem day_curve_base_nonneg (dt : PyDateTime) :
    0 ≤ melody_core._day_curve_base dt := by
  unfold melody_core._day_curve_base
  exact le_trans (by norm_num) (le_max_left (0.0 : ℝ) _)

theorem day_curve_base_le_one (dt : PyDateTime) :
    melody_core._day_curve_base dt ≤ 1 := by
  unfold melody_core._day_curve_base
  exact max_le (by norm_num) (le_trans (min_le_left _ _) (by norm_num))

/-! Helper lemmas about `pymin` / `pymax` and `_normalize`. -/

theorem foldl_min_le_init (xs : List ℝ) (a : ℝ) : xs.foldl min a ≤ a := by
  induction xs generalizing a with
  | nil => exact le_refl a
  | cons y ys ih => exact le_trans (ih (min a y)) (min_le_left a y)

theorem foldl_min_le_mem (xs : List ℝ) (a v : ℝ) (hv : v ∈ xs) :
    xs.foldl min a ≤ v := by
  induction xs generalizing a with
  | nil => cases hv
  | cons y ys ih =>
    rcases List.mem_cons.mp hv with h | h
    · rw [h]
      exact le_trans (foldl_min_le_init ys (min a y)) (min_le_right a y)
    · exact ih (min a y) h

theorem init_le_foldl_max (xs : List ℝ) (a : ℝ) : a ≤ xs.foldl max a := by
  induction xs generalizing a with
  | nil => exact le_refl a
  | cons y ys ih => exact le_trans (le_max_left a y) (ih (max a y))

theorem mem_le_foldl_max (xs : List ℝ) (a v : ℝ) (hv : v ∈ xs) :
    v ≤ xs.foldl max a := by
  induction xs generalizing a with
  | nil => cases hv
  | cons y ys ih =>
    rcases List.mem_cons.mp hv with h | h
    · rw [h]
      exact le_trans (le_max_right a y) (init_le_foldl_max ys (max a y))
    · exact ih (max a y) h

theorem pymin_le_of_mem (arr : List ℝ) (v : ℝ) (hv : v ∈ arr) :
    backfill_listeners.pymin arr ≤ v := by
  cases arr with
  | nil => cases hv
  | cons x xs =>
    simp only [backfill_listeners.pymin]
    rcases List.mem_cons.mp hv with h | h
    · rw [h]
      exact foldl_min_le_init xs x
    · exact foldl_min_le_mem xs x v h

theorem le_pymax_of_mem (arr : List ℝ) (v : ℝ) (hv : v ∈ arr) :
    v ≤ backfill_listeners.pymax arr := by
  cases arr with
  | nil => cases hv
  | cons x xs =>
    simp only [backfill_listeners.pymax]
    rcases List.mem_cons.mp hv with h | h
    · rw [h]
      exact init_le_foldl_max xs x
    · exact mem_le_foldl_max xs x v h

/-! Bound helpers for the two estimators. -/

theorem peak_for_ge_night_min (P : melody_core.Params) (dt : PyDateTime)
    (hwd : P.NIGHT_MIN ≤ P.WEEKDAY_PEAK) (hwe : P.NIGHT_MIN ≤ P.WEEKEND_PEAK) :
    P.NIGHT_MIN ≤ melody_core.peak_for P dt := by
  unfold melody_core.peak_for
  split <;> assumption

theorem base_abs_bounds (P : melody_core.Params) (dt : PyDateTime)
    (h0 : 0 ≤ P.NIGHT_MIN) (hwd : P.NIGHT_MIN ≤ P.WEEKDAY_PEAK)
    (hwe : P.NIGHT_MIN ≤ P.WEEKEND_PEAK) :
    0 ≤ melody_core.base_abs P dt ∧
    melody_core.base_abs P dt ≤ melody_core.peak_for P dt := by
  have hnp := peak_for_ge_night_min P dt hwd hwe
  have hr0 := day_curve_base_nonneg dt
  have hr1 := day_curve_base_le_one dt
  unfold melody_core.base_abs
  constructor
  · nlinarith
  · nlinarith

theorem melody_out_bounds (g : String → ℝ → ℝ) (P : melody_core.Params)
    (dt : PyDateTime) (key : String) (ts : Option ℤ) (env : ProcessEnv)
    (h0 : 0 ≤ P.NIGHT_MIN) (hwd : P.NIGHT_MIN ≤ P.WEEKDAY_PEAK)
    (hwe : P.NIGHT_MIN ≤ P.WEEKEND_PEAK)
    (hsc : 0 ≤ P.SLOW_CLIP) (hfc : 0 ≤ P.FAST_CLIP)
    (hsum : P.SLOW_CLIP + P.FAST_CLIP ≤ 1) :
    0 ≤ melody_core.estimate_listeners g P dt key ts env ∧
    ((melody_core.estimate_listeners g P dt key ts env : ℝ) ≤
      (1 + P.SLOW_CLIP + P.FAST_CLIP) * melody_core.peak_for P dt + 1 / 2) := by
  obtain ⟨hb0, hb1⟩ := base_abs_bounds P dt h0 hwd hwe
  have hpk : 0 ≤ melody_core.peak_for P dt :=
    le_trans h0 (peak_for_ge_night_min P dt hwd hwe)
  have hs1 := clipped_gauss_le (g (melody_core.slow_seed key dt) P.SLOW_SIGMA)
    P.SLOW_CLIP hsc
  have hs2 := neg_le_clipped_gauss (g (melody_core.slow_seed key dt) P.SLOW_SIGMA)
    P.SLOW_CLIP
  have hf1 := clipped_gauss_le
    (g (melody_core.fast_seed (melody_core.live_bucket P dt ts)) P.FAST_SIGMA)
    P.FAST_CLIP hfc
  have hf2 := neg_le_clipped_gauss
    (g (melody_core.fast_seed (melody_core.live_bucket P dt ts)) P.FAST_SIGMA)
    P.FAST_CLIP
  unfold melody_core.estimate_listeners
  set s := melody_core.slow_eps g P key dt with hs
  set f := melody_core.fast_eps g P dt ts with hf
  have hs1' : s ≤ P.SLOW_CLIP := hs1
  have hs2' : -P.SLOW_CLIP ≤ s := hs2
  have hf1' : f ≤ P.FAST_CLIP := hf1
  have hf2' : -P.FAST_CLIP ≤ f := hf2
  have hfac0 : 0 ≤ 1.0 + s + f := by norm_num; linarith
  have hfac1 : 1.0 + s + f ≤ 1 + P.SLOW_CLIP + P.FAST_CLIP := by norm_num; linarith
  have hval : melody_core.base_abs P dt * (1.0 + s + f) ≤
      (1 + P.SLOW_CLIP + P.FAST_CLIP) * melody_core.peak_for P dt := by
    calc melody_core.base_abs P dt * (1.0 + s + f)
        ≤ melody_core.peak_for P dt * (1 + P.SLOW_CLIP + P.FAST_CLIP) :=
          mul_le_mul hb1 hfac1 hfac0 hpk
      _ = (1 + P.SLOW_CLIP + P.FAST_CLIP) * melody_core.peak_for P dt := mul_comm _ _
  constructor
  · exact pyRound_nonneg _ (le_trans (by norm_num) (le_max_left (0.0 : ℝ) _))
  · have hmax : max 0.0 (melody_core.base_abs P dt * (1.0 + s + f)) ≤
        (1 + P.SLOW_CLIP + P.FAST_CLIP) * melody_core.peak_for P dt := by
      apply max_le _ hval
      have : (0 : ℝ) ≤ (1 + P.SLOW_CLIP + P.FAST_CLIP) * melody_core.peak_for P dt :=
        mul_nonneg (by linarith) hpk
      linarith
    have := pyRound_le_add_half (max 0.0 (melody_core.base_abs P dt * (1.0 + s + f)))
    linarith

theorem backfill_out_bounds (m : String → ℕ × ℕ) (B : backfill_listeners.Params)
    (dt : PyDateTime) (key : String) (env : ProcessEnv)
    (hwd : B.NIGHT_MIN ≤ B.WEEKDAY_PEAK) (hwe : B.NIGHT_MIN ≤ B.WEEKEND_PEAK) :
    ⌊B.NIGHT_MIN⌋ ≤ backfill_listeners.estimate_from_curve m B dt key env ∧
    backfill_listeners.estimate_from_curve m B dt key env ≤
      ⌈backfill_listeners.peak_cap B dt⌉ := by
  have hnp : B.NIGHT_MIN ≤ backfill_listeners.peak_cap B dt := by
    unfold backfill_listeners.peak_cap
    split <;> assumption
  unfold backfill_listeners.estimate_from_curve
  set v := backfill_listeners._expected_count B dt *
    backfill_listeners.jitter_factor m B key with hv
  have hlo : B.NIGHT_MIN ≤ max B.NIGHT_MIN (min (backfill_listeners.peak_cap B dt) v) :=
    le_max_left _ _
  have hhi : max B.NIGHT_MIN (min (backfill_listeners.peak_cap B dt) v) ≤
      backfill_listeners.peak_cap B dt :=
    max_le hnp (min_le_left _ _)
  exact ⟨le_trans (Int.floor_le_floor hlo) (floor_le_pyRound _),
    le_trans (pyRound_le_ceil _) (Int.ceil_le_ceil hhi)⟩

/-! Concrete evaluation at `dt0`. -/

theorem day_curve_base_dt0 : melody_core._day_curve_base dt0 = 1 := by
  have hh : ((dt0.hour : ℝ) + (dt0.minute : ℝ) / 60.0) = 9.5 := by
    norm_num [dt0]
  have hm2 : Real.exp (-((((9.5 : ℝ) - 16.0) / 2.8) ^ 2)) ≤ 1 := by
    rw [Real.exp_le_one_iff]
    have : (0 : ℝ) ≤ (((9.5 : ℝ) - 16.0) / 2.8) ^ 2 := sq_nonneg _
    linarith
  simp only [melody_core._day_curve_base, hh]
  rw [if_neg (by norm_num)]
  have hm1 : (-((((9.5 : ℝ) - 9.5) / 2.2) ^ 2)) = 0 := by norm_num
  rw [hm1, Real.exp_zero, max_eq_left hm2]
  norm_num

theorem melody_estimate_dt0_big (ts : ℤ) :
    3200 < melody_core.estimate_listeners gOne melody_core.default_params
      dt0 "k" (some ts) env0 := by
  unfold melody_core.estimate_listeners
  refine lt_of_lt_of_le (by norm_num) (int_le_pyRound 3584 _ ?_)
  have hd := day_curve_base_dt0
  have hb : melody_core.base_abs melody_core.default_params dt0 = 3200 := by
    unfold melody_core.base_abs melody_core.peak_for
    rw [hd, if_neg (by norm_num [dt0])]
    norm_num [melody_core.default_params, melody_core.load_params]
  have hs : melody_core.slow_eps gOne melody_core.default_params "k" dt0 = 0.08 := by
    unfold melody_core.slow_eps melody_core._clipped_gauss gOne
    norm_num [melody_core.default_params, melody_core.load_params, min_def, max_def]
  have hf : melody_core.fast_eps gOne melody_core.default_params dt0 (some ts) = 0.04 := by
    unfold melody_core.fast_eps melody_core._clipped_gauss gOne
    norm_num [melody_core.default_params, melody_core.load_params, min_def, max_def]
  rw [hb, hs, hf]
  rw [max_eq_right (by norm_num)]
  norm_num

/-! The specification claims. -/

/-- Claim C2: the estimation functions are deterministic — two calls with
identical arguments return the identical integer, with no dependence on the
wall clock or on any global random state that varies between calls or
processes.  The ambient process state is the explicit `ProcessEnv`
argument, and neither translated body reads it. -/
theorem C2_determinism :
    ∀ (g : String → ℝ → ℝ) (m : String → ℕ × ℕ) (P : melody_core.Params)
      (B : backfill_listeners.Params) (dt : PyDateTime) (key : String)
      (ts : Option ℤ) (e1 e2 : ProcessEnv),
    melody_core.estimate_listeners g P dt key ts e1 =
      melody_core.estimate_listeners g P dt key ts e2 ∧
    backfill_listeners.estimate_from_curve m B dt key e1 =
      backfill_listeners.estimate_from_curve m B dt key e2 := by
  intros
  exact ⟨rfl, rfl⟩

/-- Claim C3: for every seed (every pair of md5 digest halves, and every
Gaussian draw), the raw jitter fraction lies in `[-clip, +clip]` and the
multiplicative factor of `_deterministic_jitter` lies in
`[1 - clip, 1 + clip]`; `_clipped_gauss` likewise never exceeds the clip. -/
theorem C3_jitter_clipped :
    ∀ (a b : ℕ) (sigma clip x : ℝ), 0 ≤ clip →
    (-clip ≤ backfill_listeners.jitter_eps a b sigma clip ∧
      backfill_listeners.jitter_eps a b sigma clip ≤ clip) ∧
    (1 - clip ≤ backfill_listeners._deterministic_jitter a b sigma clip ∧
      backfill_listeners._deterministic_jitter a b sigma clip ≤ 1 + clip) ∧
    (-clip ≤ melody_core._clipped_gauss x clip ∧
      melody_core._clipped_gauss x clip ≤ clip) := by
  intro a b sigma clip x hc
  have h1 : -clip ≤ backfill_listeners.jitter_eps a b sigma clip := le_max_left _ _
  have h2 : backfill_listeners.jitter_eps a b sigma clip ≤ clip := by
    unfold backfill_listeners.jitter_eps
    exact max_le (by linarith) (min_le_left _ _)
  refine ⟨⟨h1, h2⟩, ⟨?_, ?_⟩,
    neg_le_clipped_gauss x clip, clipped_gauss_le x clip hc⟩
  · unfold backfill_listeners._deterministic_jitter
    norm_num
    linarith
  · unfold backfill_listeners._deterministic_jitter
    norm_num
    linarith

/-- Witness for C3 at the digest halves `(0, 0)`, the default
`sigma = 0.06`, `clip = 0.12` and the draw `1`. -/
theorem C3_witness :
    -(0.12 : ℝ) ≤ backfill_listeners.jitter_eps 0 0 0.06 0.12 ∧
    backfill_listeners.jitter_eps 0 0 0.06 0.12 ≤ 0.12 :=
  (C3_jitter_clipped 0 0 0.06 0.12 1 (by norm_num)).1

/-- Claim C6: for every hour value and day type, the combined damped shape
`_s01` hands the scale mapper a value in `[NIGHT_SFLOOR, 1]`; in
particular, with a positive floor the mapper never receives exactly zero,
and the wobble cannot push the value outside the interval. -/
theorem C6_s01_bounds :
    ∀ (B : backfill_listeners.Params) (h : ℝ) (w : Bool),
    0 < B.NIGHT_SFLOOR → B.NIGHT_SFLOOR ≤ 1 →
    B.NIGHT_SFLOOR ≤ backfill_listeners._s01 B h w ∧
    backfill_listeners._s01 B h w ≤ 1 ∧ backfill_listeners._s01 B h w ≠ 0 := by
  intro B h w h0 h1
  have hlo : B.NIGHT_SFLOOR ≤ backfill_listeners._s01 B h w := by
    unfold backfill_listeners._s01
    exact le_min (by linarith) (le_max_left _ _)
  have hhi : backfill_listeners._s01 B h w ≤ 1 := by
    unfold backfill_listeners._s01
    exact le_trans (min_le_left _ _) (by norm_num)
  exact ⟨hlo, hhi, ne_of_gt (lt_of_lt_of_le h0 hlo)⟩

/-- Witness for C6 at the default parameters, the night-centre hour and the
weekend day type. -/
theorem C6_witness :
    backfill_listeners.default_params.NIGHT_SFLOOR ≤
      backfill_listeners._s01 backfill_listeners.default_params 2.5 true :=
  (C6_s01_bounds backfill_listeners.default_params 2.5 true
    (by norm_num [backfill_listeners.default_params, backfill_listeners.load_params])
    (by norm_num [backfill_listeners.default_params,
      backfill_listeners.load_params])).1

/-- Claim C7: `_normalize` is total and guarded against zero-range
division: on a constant raw shape (`max <= min`) every output is `0`
instead of the result of a division by zero; otherwise (and in fact in
all cases) every output lies in `[0, 1]`, and the output always has the
length of the input grid. -/
theorem C7_normalize_guarded :
    ∀ (arr : List ℝ),
    (backfill_listeners.pymax arr ≤ backfill_listeners.pymin arr →
      ∀ v ∈ backfill_listeners._normalize arr, v = 0) ∧
    (∀ v ∈ backfill_listeners._normalize arr, 0 ≤ v ∧ v ≤ 1) ∧
    (backfill_listeners._normalize arr).length = arr.length := by
  intro arr
  refine ⟨?_, ?_, ?_⟩
  · intro hdeg v hv
    unfold backfill_listeners._normalize at hv
    rw [if_pos hdeg] at hv
    rcases List.mem_map.mp hv with ⟨u, _, hu2⟩
    rw [← hu2]
    norm_num
  · intro v hv
    unfold backfill_listeners._normalize at hv
    by_cases hdeg : backfill_listeners.pymax arr ≤ backfill_listeners.pymin arr
    · rw [if_pos hdeg] at hv
      rcases List.mem_map.mp hv with ⟨u, _, hu2⟩
      rw [← hu2]
      norm_num
    · rw [if_neg hdeg] at hv
      push_neg at hdeg
      rcases List.mem_map.mp hv with ⟨u, hu1, hu2⟩
      have hlo := pymin_le_of_mem arr u hu1
      have hhi := le_pymax_of_mem arr u hu1
      rw [← hu2]
      constructor
      · apply div_nonneg <;> linarith
      · rw [div_le_one (by linarith)]
        linarith
  · unfold backfill_listeners._normalize
    split <;> simp

/-- Witness for C7: the constant list `[0, 0]` normalizes to zeros, and the
value `0` of the normalization of `[0, 1]` lies in `[0, 1]`. -/
theorem C7_witness :
    (∀ v ∈ backfill_listeners._normalize [(0 : ℝ), 0], v = 0) ∧
    (0 ≤ (0 : ℝ) ∧ (0 : ℝ) ≤ 1) := by
  have hdeg : backfill_listeners.pymax [(0 : ℝ), 0] ≤
      backfill_listeners.pymin [(0 : ℝ), 0] := by
    norm_num [backfill_listeners.pymin, backfill_listeners.pymax]
  have hm : (0 : ℝ) ∈ backfill_listeners._normalize [(0 : ℝ), 1] := by
    norm_num [backfill_listeners._normalize, backfill_listeners.pymin,
      backfill_listeners.pymax, min_def, max_def]
  exact ⟨(C7_normalize_guarded [(0 : ℝ), 0]).1 hdeg,
    (C7_normalize_guarded [(0 : ℝ), 1]).2.1 0 hm⟩

/-- Claim C9: the fast jitter component of `estimate_listeners` is a
function of the live bucket alone, independent of the seed key: it is the
same for every key with the same effective bucket, and in the composition
of `estimate_listeners` the seed key enters only through the slow
component. -/
theorem C9_fast_eps_key_independent :
    ∀ (g : String → ℝ → ℝ) (P : melody_core.Params) (env : ProcessEnv)
      (dt1 dt2 : PyDateTime) (ts1 ts2 : Option ℤ) (key : String),
    (melody_core.live_bucket P dt1 ts1 = melody_core.live_bucket P dt2 ts2 →
      melody_core.fast_eps g P dt1 ts1 = melody_core.fast_eps g P dt2 ts2) ∧
    melody_core.estimate_listeners g P dt1 key ts1 env =
      pyRound (max 0.0 (melody_core.base_abs P dt1 *
        (1.0 + melody_core.slow_eps g P key dt1 +
          melody_core.fast_eps g P dt1 ts1))) := by
  intro g P env dt1 dt2 ts1 ts2 key
  refine ⟨fun h => ?_, rfl⟩
  unfold melody_core.fast_eps
  rw [h]

/-- Witness for C9: the timestamps 0 ms and 29999 ms share the default
30-second bucket, so the fast perturbation coincides. -/
theorem C9_witness :
    melody_core.fast_eps gOne melody_core.default_params dt0 (some 0) =
      melody_core.fast_eps gOne melody_core.default_params dt0 (some 29999) :=
  (C9_fast_eps_key_independent gOne melody_core.default_params env0 dt0 dt0
    (some 0) (some 29999) "k").1 (by decide)

/-- Claim C10: with an empty `seed_key` (the default), the slow jitter is
seeded from the ISO format of the datetime, so the call behaves exactly as
if the datetime's ISO string had been passed as the key; the result is a
function of the datetime, the timestamp and the configuration alone. -/
theorem C10_empty_seed_fallback :
    ∀ (g : String → ℝ → ℝ) (P : melody_core.Params) (dt : PyDateTime)
      (ts : Option ℤ) (env : ProcessEnv),
    melody_core.slow_seed "" dt = "slow::" ++ dt.isoformat ∧
    melody_core.estimate_listeners g P dt "" ts env =
      melody_core.estimate_listeners g P dt dt.isoformat ts env := by
  intro g P dt ts env
  constructor
  · rfl
  · unfold melody_core.estimate_listeners melody_core.slow_eps
      melody_core.slow_seed
    simp [ite_self]

/-- Claim C4 counterexample: the live bucket rolls over between the client
timestamps 0 ms and 60000 ms, yet the seed carrying the identity key is
`"slow::k"` in both calls — it contains no bucket — while the seeds
carrying the bucket (`"fast::0"`, `"fast::2"`) contain no identity key;
the same holds for the bucket derived from the evaluation instant
(`dt0` versus `dtT`).  No jitter seed is the identity key concatenated
with the bucket, so the key-tied perturbation cannot change at a bucket
rollover. -/
theorem C4_counterexample :
    melody_core.live_bucket melody_core.default_params dt0 (some 0) ≠
      melody_core.live_bucket melody_core.default_params dt0 (some 60000) ∧
    melody_core.slow_seed "k" dt0 = "slow::k" ∧
    melody_core.fast_seed
      (melody_core.live_bucket melody_core.default_params dt0 (some 0)) =
      "fast::0" ∧
    melody_core.fast_seed
      (melody_core.live_bucket melody_core.default_params dt0 (some 60000)) =
      "fast::2" ∧
    melody_core.live_bucket melody_core.default_params dt0 none ≠
      melody_core.live_bucket melody_core.default_params dtT none ∧
    melody_core.slow_seed "k" dt0 = melody_core.slow_seed "k" dtT := by
  refine ⟨by decide, rfl, by decide, by decide, by decide, rfl⟩

/-- Claim C4 as amended: in `melody_core` the slow jitter is seeded from
the identity key alone (`"slow::" ++ key`, with the ISO fallback) and the
fast jitter from the bucket alone, so the estimate depends on the client
timestamp only through the bucket; in `backfill_listeners` the single
jitter is seeded from the item key alone, with no time bucket at all. -/
theorem C4_amended_seeding :
    ∀ (g : String → ℝ → ℝ) (m : String → ℕ × ℕ) (P : melody_core.Params)
      (B : backfill_listeners.Params) (dt : PyDateTime) (key : String)
      (ts1 ts2 : Option ℤ) (env : ProcessEnv),
    (melody_core.live_bucket P dt ts1 = melody_core.live_bucket P dt ts2 →
      melody_core.estimate_listeners g P dt key ts1 env =
        melody_core.estimate_listeners g P dt key ts2 env) ∧
    melody_core.slow_seed key dt =
      "slow::" ++ (if key = "" then dt.isoformat else key) ∧
    backfill_listeners.estimate_from_curve m B dt key env =
      pyRound (max B.NIGHT_MIN (min (backfill_listeners.peak_cap B dt)
        (backfill_listeners._expected_count B dt *
          (1.0 + backfill_listeners.jitter_eps (m key).1 (m key).2
            B.JITTER_SIGMA B.JITTER_CLIP)))) := by
  intro g m P B dt key ts1 ts2 env
  refine ⟨fun h => ?_, rfl, rfl⟩
  unfold melody_core.estimate_listeners melody_core.fast_eps
  rw [h]

/-- Witness for C4 (amended): a bucket-preserving change of the client
timestamp leaves the estimate unchanged. -/
theorem C4_witness :
    melody_core.estimate_listeners gOne melody_core.default_params dt0 "k"
      (some 0) env0 =
    melody_core.estimate_listeners gOne melody_core.default_params dt0 "k"
      (some 29999) env0 :=
  (C4_amended_seeding gOne m0 melody_core.default_params
    backfill_listeners.default_params dt0 "k" (some 0) (some 29999) env0).1
    (by decide)

/-- Claim C1 counterexample: at the Monday 09:30 peak (`dt0`, a weekday,
so the claimed upper bound is `WEEKDAY_PEAK = 3200`) and a Gaussian oracle
drawing `1` for both seeds, `estimate_listeners` returns an integer
strictly above the peak: the source clamps only below at `0`, never into
`[NIGHT_MIN, peak]`. -/
theorem C1_counterexample :
    dt0.weekday < 5 ∧
    melody_core.default_params.WEEKDAY_PEAK = 3200 ∧
    3200 < melody_core.estimate_listeners gOne melody_core.default_params
      dt0 "k" (some 0) env0 :=
  ⟨by norm_num [dt0],
    by norm_num [melody_core.default_params, melody_core.load_params],
    melody_estimate_dt0_big 0⟩

/-- Claim C1 as amended: `backfill_listeners.estimate_from_curve` does
satisfy the claimed bounds (`⌊NIGHT_MIN⌋ ≤ n ≤ ⌈peak⌉`, which is
`[nightMin, peak]` for the integral defaults), while
`melody_core.estimate_listeners` guarantees only `0 ≤ n` and
`n ≤ (1 + SLOW_CLIP + FAST_CLIP) · peak + 1/2`. -/
theorem C1_amended_bounds :
    ∀ (g : String → ℝ → ℝ) (m : String → ℕ × ℕ) (P : melody_core.Params)
      (B : backfill_listeners.Params) (dt : PyDateTime) (key : String)
      (ts : Option ℤ) (env : ProcessEnv),
    B.NIGHT_MIN ≤ B.WEEKDAY_PEAK → B.NIGHT_MIN ≤ B.WEEKEND_PEAK →
    0 ≤ P.NIGHT_MIN → P.NIGHT_MIN ≤ P.WEEKDAY_PEAK →
    P.NIGHT_MIN ≤ P.WEEKEND_PEAK → 0 ≤ P.SLOW_CLIP → 0 ≤ P.FAST_CLIP →
    P.SLOW_CLIP + P.FAST_CLIP ≤ 1 →
    (⌊B.NIGHT_MIN⌋ ≤ backfill_listeners.estimate_from_curve m B dt key env ∧
      backfill_listeners.estimate_from_curve m B dt key env ≤
        ⌈backfill_listeners.peak_cap B dt⌉) ∧
    (0 ≤ melody_core.estimate_listeners g P dt key ts env ∧
      ((melody_core.estimate_listeners g P dt key ts env : ℝ) ≤
        (1 + P.SLOW_CLIP + P.FAST_CLIP) * melody_core.peak_for P dt + 1 / 2)) := by
  intro g m P B dt key ts env hbwd hbwe h0 hwd hwe hsc hfc hsum
  exact ⟨backfill_out_bounds m B dt key env hbwd hbwe,
    melody_out_bounds g P dt key ts env h0 hwd hwe hsc hfc hsum⟩

/-- Witness for C1 (amended) at the default parameters of both modules. -/
theorem C1_witness :
    ⌊backfill_listeners.default_params.NIGHT_MIN⌋ ≤
      backfill_listeners.estimate_from_curve m0 backfill_listeners.default_params
        dt0 "k" env0 :=
  (C1_amended_bounds gOne m0 melody_core.default_params
    backfill_listeners.default_params dt0 "k" (some 0) env0
    (by norm_num [backfill_listeners.default_params, backfill_listeners.load_params])
    (by norm_num [backfill_listeners.default_params, backfill_listeners.load_params])
    (by norm_num [melody_core.default_params, melody_core.load_params])
    (by norm_num [melody_core.default_params, melody_core.load_params])
    (by norm_num [melody_core.default_params, melody_core.load_params])
    (by norm_num [melody_core.default_params, melody_core.load_params])
    (by norm_num [melody_core.default_params, melody_core.load_params])
    (by norm_num [melody_core.default_params, melody_core.load_params])).1.1

/-- Claim C5 counterexample: the client timestamps 0 ms and 60000 ms lie in
different default 30-second windows, and at `dt0` (a weekday, claimed
upper bound `WEEKDAY_PEAK = 3200`) with the oracle drawing `1` both calls
return an integer above the peak, so the two results do not both satisfy
the claimed bounds property. -/
theorem C5_counterexample :
    melody_core.live_bucket melody_core.default_params dt0 (some 0) ≠
      melody_core.live_bucket melody_core.default_params dt0 (some 60000) ∧
    dt0.weekday < 5 ∧
    melody_core.default_params.WEEKDAY_PEAK = 3200 ∧
    3200 < melody_core.estimate_listeners gOne melody_core.default_params
      dt0 "k" (some 0) env0 ∧
    3200 < melody_core.estimate_listeners gOne melody_core.default_params
      dt0 "k" (some 60000) env0 :=
  ⟨by decide, by norm_num [dt0],
    by norm_num [melody_core.default_params, melody_core.load_params],
    melody_estimate_dt0_big 0, melody_estimate_dt0_big 60000⟩

/-- Claim C5 as amended: for a fixed identity key and datetime, two client
timestamps with the same floor-divided window
`(ts // 1000) // SLOW_BUCKET_S` yield the identical integer; timestamps in
different windows may differ, but every result satisfies the bounds the
code actually guarantees (`0 ≤ n ≤ (1 + SLOW_CLIP + FAST_CLIP) · peak + 1/2`),
not `[nightMin, peak]`. -/
theorem C5_amended_bucket_stability :
    ∀ (g : String → ℝ → ℝ) (P : melody_core.Params) (dt : PyDateTime)
      (key : String) (ts1 ts2 : ℤ) (env : ProcessEnv),
    0 ≤ P.NIGHT_MIN → P.NIGHT_MIN ≤ P.WEEKDAY_PEAK →
    P.NIGHT_MIN ≤ P.WEEKEND_PEAK → 0 ≤ P.SLOW_CLIP → 0 ≤ P.FAST_CLIP →
    P.SLOW_CLIP + P.FAST_CLIP ≤ 1 →
    (Int.fdiv (Int.fdiv ts1 1000) P.SLOW_BUCKET_S =
        Int.fdiv (Int.fdiv ts2 1000) P.SLOW_BUCKET_S →
      melody_core.estimate_listeners g P dt key (some ts1) env =
        melody_core.estimate_listeners g P dt key (some ts2) env) ∧
    (0 ≤ melody_core.estimate_listeners g P dt key (some ts1) env ∧
      ((melody_core.estimate_listeners g P dt key (some ts1) env : ℝ) ≤
        (1 + P.SLOW_CLIP + P.FAST_CLIP) * melody_core.peak_for P dt + 1 / 2)) := by
  intro g P dt key ts1 ts2 env h0 hwd hwe hsc hfc hsum
  refine ⟨fun h => ?_,
    melody_out_bounds g P dt key (some ts1) env h0 hwd hwe hsc hfc hsum⟩
  unfold melody_core.estimate_listeners melody_core.fast_eps
    melody_core.live_bucket
  dsimp only
  rw [h]

/-- Witness for C5 (amended): 0 ms and 29999 ms share the default window,
so the estimates coincide. -/
theorem C5_witness :
    melody_core.estimate_listeners gOne melody_core.default_params dt0 "k"
      (some 0) env0 =
    melody_core.estimate_listeners gOne melody_core.default_params dt0 "k"
      (some 29999) env0 :=
  (C5_amended_bucket_stability gOne melody_core.default_params dt0 "k" 0 29999
    env0
    (by norm_num [melody_core.default_params, melody_core.load_params])
    (by norm_num [melody_core.default_params, melody_core.load_params])
    (by norm_num [melody_core.default_params, melody_core.load_params])
    (by norm_num [melody_core.default_params, melody_core.load_params])
    (by norm_num [melody_core.default_params, melody_core.load_params])
    (by norm_num [melody_core.default_params, melody_core.load_params])).1
    (by decide)

/-- Claim C8 counterexample: loading a configuration whose peaks lie below
the night floor does not fail — the module-level loader returns the
malformed parameter bundle unchanged (both translated loaders are total
functions with no validation or error path). -/
theorem C8_counterexample :
    (backfill_listeners.load_params badEnvF).WEEKDAY_PEAK = 100 ∧
    (backfill_listeners.load_params badEnvF).WEEKEND_PEAK = 90 ∧
    (backfill_listeners.load_params badEnvF).NIGHT_MIN = 160 ∧
    (backfill_listeners.load_params badEnvF).WEEKDAY_PEAK ≤
      (backfill_listeners.load_params badEnvF).NIGHT_MIN := by
  refine ⟨rfl, rfl, rfl, ?_⟩
  rw [show (backfill_listeners.load_params badEnvF).WEEKDAY_PEAK = 100 from rfl,
    show (backfill_listeners.load_params badEnvF).NIGHT_MIN = 160 from rfl]
  norm_num

/-- Claim C8 as amended: the module-level loading accepts any parameter
values without validation (each field is exactly the environment override
or the default), and a malformed bundle with both peaks at or below the
night floor is silently tolerated at call time: `estimate_from_curve`
then always returns `round(NIGHT_MIN)` via its clamp. -/
theorem C8_amended_no_validation :
    ∀ (envF : String → Option ℝ) (m : String → ℕ × ℕ) (dt : PyDateTime)
      (key : String) (env : ProcessEnv),
    (backfill_listeners.load_params envF).WEEKDAY_PEAK =
      (envF "WEEKDAY_PEAK").getD 3260 ∧
    (backfill_listeners.load_params envF).NIGHT_MIN =
      (envF "NIGHT_MIN").getD 160 ∧
    ((backfill_listeners.load_params envF).WEEKDAY_PEAK ≤
        (backfill_listeners.load_params envF).NIGHT_MIN →
      (backfill_listeners.load_params envF).WEEKEND_PEAK ≤
        (backfill_listeners.load_params envF).NIGHT_MIN →
      backfill_listeners.estimate_from_curve m
          (backfill_listeners.load_params envF) dt key env =
        pyRound (backfill_listeners.load_params envF).NIGHT_MIN) := by
  intro envF m dt key env
  refine ⟨rfl, rfl, fun hwd hwe => ?_⟩
  have hpc : backfill_listeners.peak_cap (backfill_listeners.load_params envF) dt ≤
      (backfill_listeners.load_params envF).NIGHT_MIN := by
    unfold backfill_listeners.peak_cap
    split <;> assumption
  unfold backfill_listeners.estimate_from_curve
  rw [max_eq_left (le_trans (min_le_left _ _) hpc)]

/-- Witness for C8 (amended): under the malformed environment `badEnvF`
the estimator degenerates to `round(NIGHT_MIN)`. -/
theorem C8_witness :
    backfill_listeners.estimate_from_curve m0
        (backfill_listeners.load_params badEnvF) dt0 "k" env0 =
      pyRound (backfill_listeners.load_params badEnvF).NIGHT_MIN :=
  (C8_amended_no_validation badEnvF m0 dt0 "k" env0).2.2
    (by rw [show (backfill_listeners.load_params badEnvF).WEEKDAY_PEAK = 100 from rfl,
          show (backfill_listeners.load_params badEnvF).NIGHT_MIN = 160 from rfl]
        norm_num)
    (by rw [show (backfill_listeners.load_params badEnvF).WEEKEND_PEAK = 90 from rfl,
          show (backfill_listeners.load_params badEnvF).NIGHT_MIN = 160 from rfl]
        norm_num)

end MelodyNow
